import Mathlib

/-!
Shallow embedding of `build.py`, the incremental image-variant build
pipeline of the `big_imgs` repository, together with theorems settling the
specification claims about its cache-validity rule, crop geometry, banner
breakpoint planning, command compilation, dispatch/metadata persistence,
and destination pruning.

Python floats are modelled by exact rationals (all ratios involved are
exactly representable: widths and heights are integers and the constants
1.5 and 1.75 are dyadic), Python `round` by `pyRound` (ties to even), and
Python exceptions by `Except PyErr`.
-/

namespace BigImgs

/-- Python's built-in `round`: nearest integer, ties go to the even integer. -/
def pyRound (q : ℚ) : ℤ :=
  let f := ⌊q⌋
  if q - f < 1/2 then f
  else if 1/2 < q - f then f + 1
  else if f % 2 = 0 then f else f + 1

/-- Structured form of the string returned by `magick_resize` in build.py:
an optional crop step recorded as `(crop_width, crop_height, crop_x, crop_y)`
and an optional fit-within resize step recorded as `(target_width, target_height)`. -/
structure ResizeCmd where
  crop : Option (ℤ × ℤ × ℤ × ℤ)
  resize : Option (ℤ × ℤ)
deriving DecidableEq

/-- The crop rectangle `(crop_width, crop_height, crop_x, crop_y)` computed by
`magick_resize` (build.py lines 103-116): the first branch fires when the target
ratio is strictly wider than the actual ratio and trims height using the vertical
focal percentage, the second when it is strictly taller and trims width using the
horizontal focal percentage. -/
def magickCropVals (width height target_width target_height : ℤ)
    (center_x center_y : ℚ) : ℤ × ℤ × ℤ × ℤ :=
  let target_ratio : ℚ := (target_width : ℚ) / (target_height : ℚ)
  let actual_ratio : ℚ := (width : ℚ) / (height : ℚ)
  let crop_height : ℤ :=
    if actual_ratio < target_ratio then
      pyRound ((height : ℚ) * actual_ratio / target_ratio)
    else height
  let crop_y : ℤ :=
    if actual_ratio < target_ratio then
      pyRound (((height - crop_height : ℤ) : ℚ) * center_y / 100)
    else 0
  let crop_width : ℤ :=
    if target_ratio < actual_ratio then
      pyRound ((width : ℚ) * target_ratio / actual_ratio)
    else width
  let crop_x : ℤ :=
    if target_ratio < actual_ratio then
      pyRound (((width - crop_width : ℤ) : ℚ) * center_x / 100)
    else 0
  (crop_width, crop_height, crop_x, crop_y)

/-- build.py `magick_resize` (lines 90-122): emit a crop step only when the crop
rectangle differs from the full source, and a resize step only when the cropped
dimensions still differ from the target. -/
def magick_resize (width height target_width target_height : ℤ)
    (center_x center_y : ℚ) : ResizeCmd :=
  match magickCropVals width height target_width target_height center_x center_y with
  | (crop_width, crop_height, crop_x, crop_y) =>
    { crop :=
        if crop_height ≠ height ∨ crop_width ≠ width then
          some (crop_width, crop_height, crop_x, crop_y)
        else none
      resize :=
        if target_height ≠ crop_height ∨ target_width ≠ crop_width then
          some (target_width, target_height)
        else none }

/-- One image-processing step of a variant command string. -/
inductive MagickOp where
  /-- A fit-within resize, the string `-resize 'WxH>'`. -/
  | fitResize (w h : ℤ) : MagickOp
  /-- A width-only resize, the string `-resize W` (used by the imagery 1x variant). -/
  | widthResize (w : ℤ) : MagickOp
  /-- A bare crop `-crop 'WxH+X+Y'` (used by the tag preview variant). -/
  | cropOnly (w h x y : ℤ) : MagickOp
  /-- The output of `magick_resize`. -/
  | resizeCmd (r : ResizeCmd) : MagickOp
deriving DecidableEq

/-- The per-variant command: whether it is preceded by `+delete mpr:orig`
(restoring the originally decoded buffer) and its processing step. -/
structure VariantCmd where
  restoreOrig : Bool
  op : MagickOp
deriving DecidableEq

/-- build.py `ImageVariant` (lines 85-88). -/
structure ImageVariant where
  command : VariantCmd
  outpath : String
deriving DecidableEq

/-- Python exceptions that build.py can raise. -/
inductive PyErr where
  | fileNotFound : PyErr
  | jsonDecodeError : PyErr
  | valueError : PyErr
  | keyError : PyErr
  | calledProcessError (code : ℤ) : PyErr
deriving DecidableEq

/-- A per-image focal point, the `center` entry of `image_metadata.json`:
percentage coordinates. -/
abbrev Center := ℚ × ℚ

/-- `ImageryCourseImageDeriver.getVariantsForImage` (build.py lines 232-237),
with the source filename represented by its stem. -/
def imageryVariants (stem : String) : List ImageVariant :=
  [ ⟨⟨false, .fitResize 1066 1280⟩, stem ++ ".webp"⟩,
    ⟨⟨false, .widthResize 533⟩, stem ++ "-1x.webp"⟩ ]

/-- `BuddhismCourseImageDeriver.getVariantsForImage` (build.py lines 244-256);
`FunctionCourseImageDeriver` inherits this unchanged. -/
def buddhismVariants (stem : String) (width height : ℤ) : List ImageVariant :=
  if width < height ∧ 1536 ≤ height then
    [ ⟨⟨false, .fitResize 1920 1920⟩, stem ++ ".webp"⟩,
      ⟨⟨false, .fitResize 1280 1280⟩, stem ++ "-2x.webp"⟩,
      ⟨⟨false, .fitResize 640 640⟩, stem ++ "-1x.webp"⟩ ]
  else
    [ ⟨⟨false, .fitResize 1280 1280⟩, stem ++ ".webp"⟩,
      ⟨⟨false, .fitResize 640 640⟩, stem ++ "-1x.webp"⟩ ]

/-- `TagIllustrationImageDeriver.getVariantsForImage` (build.py lines 277-288):
looks up the image's focal point in the group's current `image_data` (a missing
key raises `KeyError`), converts it to pixel offsets for the fixed 448x250
preview crop, and plans three variants. -/
def tagGetVariantsForImage (stem name : String) (width height : ℤ)
    (image_data : List (String × Center)) : Except PyErr (List ImageVariant) :=
  match image_data.lookup name with
  | none => .error .keyError
  | some c =>
    let c0 := pyRound (((width - 448 : ℤ) : ℚ) * c.1 / 100)
    let c1 := pyRound (((height - 250 : ℤ) : ℚ) * c.2 / 100)
    .ok [ ⟨⟨false, .fitResize 1840 1250⟩, stem ++ ".webp"⟩,
          ⟨⟨false, .fitResize 920 625⟩, stem ++ "-1x.webp"⟩,
          ⟨⟨true, .cropOnly 448 250 c0 c1⟩, stem ++ "-preview.webp"⟩ ]

/-- `BannerImageDeriver.DENSITY` (build.py line 296). -/
def DENSITY : ℚ := 3/2

/-- `BannerImageDeriver.MIN_DPP_FOR_2X` (build.py line 299). -/
def MIN_DPP_FOR_2X : ℚ := 7/4

/-- `BannerImageDeriver.TARGET_WIDTHS` (build.py line 295). -/
def bannerTargetWidths : List ℤ := [400, 594, 881, 1308, 1940, 2880, 4274, 6343]

/-- `BannerImageDeriver.getHeightForType` (build.py lines 310-323): any
subfolder other than the five known ones raises `ValueError`. -/
def getHeightForType (subfolder : String) : Except PyErr ℤ :=
  if subfolder = "courses" then .ok 680
  else if subfolder = "footers" then .ok 650
  else if subfolder = "headers" then .ok 240
  else if subfolder = "navbar_headers" then .ok 200
  else if subfolder = "huge_footers" then .ok 900
  else .error .valueError

/-- The breakpoint loop of `BannerImageDeriver.getVariantsForImage`
(build.py lines 332-357). The Boolean argument records whether `ret` is
nonempty so far (the first emitted 2x command is not prefixed by
`+delete mpr:orig`). When `target_width * MIN_DPP_FOR_2X > width` a single
1x variant is emitted and the loop returns early, skipping all later
breakpoints; otherwise a 2x variant (via `magick_resize` at twice the
density targets) and a plain fit-resize 1x variant are emitted. -/
def bannerVariantsLoop (width height target_height : ℤ) (cx cy : ℚ)
    (stem : String) : Bool → List ℤ → List ImageVariant
  | _, [] => []
  | ret_nonempty, target_width :: rest =>
    if (target_width : ℚ) * MIN_DPP_FOR_2X > (width : ℚ) then
      [ ⟨⟨true, .resizeCmd (magick_resize width height
            (pyRound (DENSITY * target_width)) (pyRound (DENSITY * target_height)) cx cy)⟩,
          stem ++ "-" ++ toString target_width ++ "-1x.webp"⟩ ]
    else
      ⟨⟨ret_nonempty, .resizeCmd (magick_resize width height
            (pyRound (2 * (DENSITY * target_width))) (pyRound (2 * (DENSITY * target_height))) cx cy)⟩,
          stem ++ "-" ++ toString target_width ++ "-2x.webp"⟩ ::
      ⟨⟨false, .fitResize (pyRound (DENSITY * target_width)) (pyRound (DENSITY * target_height))⟩,
          stem ++ "-" ++ toString target_width ++ "-1x.webp"⟩ ::
      bannerVariantsLoop width height target_height cx cy stem true rest

/-- `BannerImageDeriver.getVariantsForImage` (build.py lines 328-357): the
subfolder (first path component) fixes the target height via
`getHeightForType` before the focal point is looked up; an unknown subfolder
therefore raises `ValueError` and an image missing from `image_data` raises
`KeyError`. -/
def bannerGetVariantsForImage (parts : List String) (name stem : String)
    (width height : ℤ) (image_data : List (String × Center)) :
    Except PyErr (List ImageVariant) :=
  match parts with
  | [] => .error .keyError
  | subfolder :: _ =>
    match getHeightForType subfolder with
    | .error e => .error e
    | .ok target_height =>
      match image_data.lookup name with
      | none => .error .keyError
      | some c =>
        .ok (bannerVariantsLoop width height target_height c.1 c.2 stem false
              bannerTargetWidths)

/-- `BaseImageDeriver.versionMatches` (build.py lines 153-154): the persisted
version must be at least the deriver's configured `VERSION`. The course and
imagery derivers use this directly; `TagIllustrationImageDeriver` does not
override it either. -/
def baseVersionMatches (previous_version VERSION : ℤ) : Bool :=
  decide (VERSION ≤ previous_version)

/-- `TagIllustrationImageDeriver.VERSION` (build.py line 267). -/
def tagVERSION : ℤ := 1

/-- The `versionMatches` used by `TagIllustrationImageDeriver`: the class
declares no override, so it inherits `BaseImageDeriver.versionMatches` with
its own `VERSION = 1`; its per-image `image_data` plays no part. -/
def tagVersionMatches (previous_version : ℤ) : Bool :=
  baseVersionMatches previous_version tagVERSION

/-- `BannerImageDeriver.VERSION` (build.py line 294). -/
def bannerVERSION : ℤ := 2

/-- `BannerImageDeriver.versionMatches` (build.py lines 307-308): the version
check plus equality of the image's persisted and current `image_data` entries.
(In the source a key missing from either mapping raises `KeyError`; here the
lookups are `Option`-valued, which agrees with the source whenever the key is
present in both mappings.) -/
def bannerVersionMatches (previous_version : ℤ)
    (prev_data cur_data : List (String × Center)) (name : String) : Bool :=
  decide (bannerVERSION ≤ previous_version) &&
    decide (prev_data.lookup name = cur_data.lookup name)

/-- The variant loop of `BaseImageDeriver.magickCmdForFile` (build.py lines
162-170), abstracted over the deriver's `versionMatches` result and the
filesystem's existence test for output paths. Returns the variants that stay
in the compiled command and the outpaths appended to `modified_files`.
A variant is dropped (`continue`) exactly when its outpath exists and
`versionMatches` holds; it is appended to `modified_files` only when its
outpath exists but `versionMatches` fails. -/
def filterVariants (existsOn versionOk : String → Bool) :
    List ImageVariant → List ImageVariant × List String
  | [] => ([], [])
  | v :: rest =>
    let r := filterVariants existsOn versionOk rest
    if existsOn v.outpath then
      if versionOk v.outpath then r
      else (v :: r.1, v.outpath :: r.2)
    else (v :: r.1, r.2)

/-- `BaseImageDeriver.magickCmdForFile` (build.py lines 156-174) after the
dimension probe: compile the surviving variants of one image into a single
command (`none` when nothing survives, mirroring `return None` on an empty
command string), and report the `modified_files` additions. -/
def magickCmdForFile (existsOn versionOk : String → Bool)
    (variants : List ImageVariant) : Option (List ImageVariant) × List String :=
  let r := filterVariants existsOn versionOk variants
  (if r.1 = [] then none else some r.1, r.2)

/-- `magickCmdForFile` for derivers whose variant planning can raise
(`TagIllustrationImageDeriver`, `BannerImageDeriver`): an exception from
`getVariantsForImage` propagates before any command is assembled. -/
def magickCmdForFileE (existsOn versionOk : String → Bool)
    (variantsE : Except PyErr (List ImageVariant)) :
    Except PyErr (Option (List ImageVariant) × List String) :=
  match variantsE with
  | .error e => .error e
  | .ok vs => .ok (magickCmdForFile existsOn versionOk vs)

/-- The per-file loop of `BaseImageDeriver.run` (build.py lines 201-210)
viewed as command compilation: files are processed in order, an exception
while planning one file's variants aborts the whole group run, and files
whose compiled command is `None` are skipped. -/
def compileAll (existsOn versionOk : String → Bool) :
    List (Except PyErr (List ImageVariant)) →
    Except PyErr (List (List ImageVariant))
  | [] => .ok []
  | f :: fs =>
    match magickCmdForFileE existsOn versionOk f with
    | .error e => .error e
    | .ok (none, _) => compileAll existsOn versionOk fs
    | .ok (some c, _) =>
      match compileAll existsOn versionOk fs with
      | .error e => .error e
      | .ok cs => .ok (c :: cs)

/-- Per-group metadata, `{'version': ..., 'image_data': ...}`; derivers
without per-image data leave `image_data` empty. -/
structure Metadata where
  version : ℤ
  image_data : List (String × Center)
deriving DecidableEq

/-- The state of the group's metadata file on disk when `__init__` reads it. -/
inductive MetaFileState where
  | absent : MetaFileState
  | unparsable : MetaFileState
  | parsed (m : Metadata) : MetaFileState
deriving DecidableEq

/-- The metadata read in `BaseImageDeriver.__init__` (build.py lines 140-143):
`json.loads(self.metadata_path.read_text())` guarded by
`except FileNotFoundError` only. A missing file defaults to
`{'version': 0}`; a file that exists but fails to parse raises
`json.JSONDecodeError`, which is not caught. -/
def loadPreviousInfo : MetaFileState → Except PyErr Metadata
  | .absent => .ok ⟨0, []⟩
  | .unparsable => .error .jsonDecodeError
  | .parsed m => .ok m

/-- Observable actions of `BaseImageDeriver.run` (build.py lines 176-225). -/
inductive Action where
  | printCmd (c : List ImageVariant) : Action
  | execute (c : List ImageVariant) : Action
  | writeMetadata (m : Metadata) : Action
  | raiseCalledProcessError (code : ℤ) : Action
deriving DecidableEq

/-- The `as_completed` loop (build.py lines 211-220) over the collected
return codes, in completion order: the first nonzero return code raises
`subprocess.CalledProcessError`. -/
def awaitResults : List ℤ → Except ℤ Unit
  | [] => .ok ()
  | rc :: rest => if rc ≠ 0 then .error rc else awaitResults rest

/-- The dispatch-and-finalize phase of `BaseImageDeriver.run` (build.py lines
191-222) as an action trace, given the compiled commands and the invocation
return codes. In dry-run mode commands are only printed and the metadata
line is never reached; otherwise every compiled command is submitted, and
the metadata file is written exactly when awaiting all results raises
nothing. -/
def runActions (dry_run : Bool) (meta : Metadata)
    (cmds : List (List ImageVariant)) (returncodes : List ℤ) : List Action :=
  if dry_run then cmds.map Action.printCmd
  else
    cmds.map Action.execute ++
      (match awaitResults returncodes with
       | .error rc => [Action.raiseCalledProcessError rc]
       | .ok _ => [Action.writeMetadata meta])

/-- An absolute destination path, as its list of components below the
destination root. -/
abbrev DPath := List String

/-- The `files_to_rm` initialization of `prepare_dest` (build.py lines 41-50)
for an existing destination directory: with `remove_old` the set of the
destination root's immediate entries (`dest.iterdir()`), otherwise empty. -/
def prepare_dest (remove_old : Bool) (dest_entries : List DPath) : List DPath :=
  if remove_old then dest_entries else []

/-- `touch_file` (build.py lines 52-58): discard one resolved path from
`files_to_rm`. -/
def touch_file (files_to_rm : List DPath) (p : DPath) : List DPath :=
  files_to_rm.filter (fun q => q ≠ p)

/-- All `touch_file` calls of a run folded over `files_to_rm`. -/
def touchAll (files_to_rm : List DPath) (touched : List DPath) : List DPath :=
  touched.foldl touch_file files_to_rm

/-- Whether `anc` is `p` itself or a directory above `p`. -/
def underPath : DPath → DPath → Bool
  | [], _ => true
  | _ :: _, [] => false
  | a :: as, b :: bs => a == b && underPath as bs

/-- The effect of `remove_untouched_files` / `rm_file` (build.py lines 74-83)
on one path of the destination tree: `p` disappears exactly when some member
of the final `files_to_rm` is `p` itself or an ancestor directory of `p`
(directories are removed with `rmtree`, files unlinked individually). -/
def pathDeleted (files_to_rm : List DPath) (p : DPath) : Bool :=
  files_to_rm.any (fun e => underPath e p)

/-- The guard in `__main__` (build.py lines 385-386): the side file
`modified_files.txt` is written only when `len(modified_files) > 0`. -/
def sideFileGate (modified_files : List String) : Bool :=
  decide (0 < modified_files.length)

/-- Shape of the variants emitted for the banner breakpoints that precede the
early exit, written out from the `else` branch of the breakpoint loop: each
such breakpoint contributes a 2x variant (at twice the density targets) and a
plain 1x fit resize. Used to state what the loop produces up to the first
breakpoint that exceeds the source's resolution. -/
def bannerPairs (width height target_height : ℤ) (cx cy : ℚ)
    (stem : String) : Bool → List ℤ → List ImageVariant
  | _, [] => []
  | ret_nonempty, target_width :: rest =>
    ⟨⟨ret_nonempty, .resizeCmd (magick_resize width height
          (pyRound (2 * (DENSITY * target_width))) (pyRound (2 * (DENSITY * target_height))) cx cy)⟩,
        stem ++ "-" ++ toString target_width ++ "-2x.webp"⟩ ::
    ⟨⟨false, .fitResize (pyRound (DENSITY * target_width)) (pyRound (DENSITY * target_height))⟩,
        stem ++ "-" ++ toString target_width ++ "-1x.webp"⟩ ::
    bannerPairs width height target_height cx cy stem true rest

/-- The cache-validity predicate as the specification states it, for a group
with per-image extra data: the output exists, the persisted version reaches
the configured one, and the persisted extra value for the image equals the
current one. Stated from the spec's words, to be compared with the code's
per-deriver skip conditions. -/
def specClaimedValid (outpath_exists : Bool) (previous_version VERSION : ℤ)
    (prev_entry cur_entry : Option Center) : Bool :=
  outpath_exists && decide (VERSION ≤ previous_version) &&
    decide (prev_entry = cur_entry)

lemma helper_pyRound_lt {q : ℚ} {n : ℤ} (hf : ⌊q⌋ = n) (h : q - n < 1/2) :
    pyRound q = n := by
  simp only [pyRound, hf]
  rw [if_pos h]

lemma helper_pyRound_gt {q : ℚ} {n : ℤ} (hf : ⌊q⌋ = n) (h : 1/2 < q - n) :
    pyRound q = n + 1 := by
  simp only [pyRound, hf]
  rw [if_neg (by linarith), if_pos h]

lemma helper_pyRound_int (n : ℤ) : pyRound (n : ℚ) = n :=
  helper_pyRound_lt (Int.floor_intCast n) (by norm_num)

/-- C2: `magick_resize` crop geometry. When the target ratio is strictly wider
than the actual ratio, the height is cropped to `round(height * actualRatio /
targetRatio)` with `crop_y = round(delta_h * focalY / 100)` and the width is
unchanged; when the target ratio is strictly taller, symmetrically the width is
cropped using the horizontal focal percentage; when the ratios are equal no
crop step is produced; and on the concrete input `width=1000, height=1000,
target=500x1000, focal=(50,50)` the result is a centered 500x1000 crop
(`crop_x = 250`) with no resize step. -/
theorem C2_computeCrop :
    (∀ (width height target_width target_height : ℤ) (cx cy : ℚ),
      0 < width → 0 < height → 0 < target_width → 0 < target_height →
      (((width : ℚ) / (height : ℚ) < (target_width : ℚ) / (target_height : ℚ)) →
        magickCropVals width height target_width target_height cx cy =
          (width,
           pyRound ((height : ℚ) * ((width : ℚ) / (height : ℚ)) /
             ((target_width : ℚ) / (target_height : ℚ))),
           0,
           pyRound (((height -
               pyRound ((height : ℚ) * ((width : ℚ) / (height : ℚ)) /
                 ((target_width : ℚ) / (target_height : ℚ))) : ℤ) : ℚ) * cy / 100))) ∧
      (((target_width : ℚ) / (target_height : ℚ) < (width : ℚ) / (height : ℚ)) →
        magickCropVals width height target_width target_height cx cy =
          (pyRound ((width : ℚ) * ((target_width : ℚ) / (target_height : ℚ)) /
             ((width : ℚ) / (height : ℚ))),
           height,
           pyRound (((width -
               pyRound ((width : ℚ) * ((target_width : ℚ) / (target_height : ℚ)) /
                 ((width : ℚ) / (height : ℚ))) : ℤ) : ℚ) * cx / 100),
           0)) ∧
      (((target_width : ℚ) / (target_height : ℚ) = (width : ℚ) / (height : ℚ)) →
        (magick_resize width height target_width target_height cx cy).crop = none))
    ∧ magick_resize 1000 1000 500 1000 50 50 =
        { crop := some (500, 1000, 250, 0), resize := none } := by
  constructor
  · intro width height target_width target_height cx cy _ _ _ _
    refine ⟨fun h => ?_, fun h => ?_, fun h => ?_⟩
    · simp only [magickCropVals]
      rw [if_pos h, if_pos h, if_neg (lt_asymm h), if_neg (lt_asymm h)]
    · simp only [magickCropVals]
      rw [if_neg (lt_asymm h), if_neg (lt_asymm h), if_pos h, if_pos h]
    · have h1 : ¬((width : ℚ) / (height : ℚ) < (target_width : ℚ) / (target_height : ℚ)) := by
        rw [h]; exact lt_irrefl _
      have h2 : ¬((target_width : ℚ) / (target_height : ℚ) < (width : ℚ) / (height : ℚ)) := by
        rw [h]; exact lt_irrefl _
      simp only [magick_resize, magickCropVals]
      rw [if_neg h2, if_neg h1, if_neg h2, if_neg h1]
      simp
  · have hlt : ((500 : ℤ) : ℚ) / ((1000 : ℤ) : ℚ) < ((1000 : ℤ) : ℚ) / ((1000 : ℤ) : ℚ) := by
      norm_num
    have hnlt : ¬(((1000 : ℤ) : ℚ) / ((1000 : ℤ) : ℚ) < ((500 : ℤ) : ℚ) / ((1000 : ℤ) : ℚ)) := by
      norm_num
    have hv : magickCropVals 1000 1000 500 1000 50 50 = (500, 1000, 250, 0) := by
      simp only [magickCropVals]
      rw [if_pos hlt, if_neg hnlt, if_pos hlt, if_neg hnlt]
      norm_num [pyRound]
    simp only [magick_resize, hv]
    norm_num

/-- Witness for C2 at the concrete input of the claim: the hypotheses of the
general part are discharged at `width=1000, height=1000, target=500x1000,
focal=(50,50)`, whose ratios select the crop-width branch. -/
theorem C2_computeCrop_witness :
    magickCropVals 1000 1000 500 1000 50 50 = (500, 1000, 250, 0) := by
  have h := (C2_computeCrop.1 1000 1000 500 1000 50 50 (by norm_num) (by norm_num)
    (by norm_num) (by norm_num)).2.1 (by norm_num)
  rw [h]
  norm_num [pyRound]

lemma helper_awaitResults_ok (returncodes : List ℤ) :
    awaitResults returncodes = .ok () ↔
      returncodes.all (fun rc => rc == 0) = true := by
  induction returncodes with
  | nil => simp [awaitResults]
  | cons rc rest ih =>
    by_cases h : rc = 0
    · simp [awaitResults, h, ih]
    · simp [awaitResults, h]

/-- C5: for a group run, the metadata file is rewritten iff the run is not a
dry run and every submitted invocation completed with return code 0; in
dry-run mode, and whenever some invocation fails, no metadata write action
occurs, so the on-disk metadata file is left unchanged. -/
theorem C5_metadataPersistence :
    ∀ (meta : Metadata) (cmds : List (List ImageVariant)) (returncodes : List ℤ),
      (Action.writeMetadata meta ∈ runActions false meta cmds returncodes ↔
        returncodes.all (fun rc => rc == 0) = true)
      ∧ Action.writeMetadata meta ∉ runActions true meta cmds returncodes := by
  intro meta cmds returncodes
  constructor
  · rw [← helper_awaitResults_ok]
    cases h : awaitResults returncodes with
    | error rc => simp [runActions, h]
    | ok u => simp [runActions, h]
  · simp [runActions]

/-- C6 amended: reading the group metadata in `__init__` defaults to
`{version: 0}` (treating every output as invalid) only when the file is
absent; a parsed file is used as-is; an existing but unparsable file raises
`json.JSONDecodeError`, which is not caught, aborting the run. -/
theorem C6_metadataRead_amended :
    loadPreviousInfo MetaFileState.absent = .ok ⟨0, []⟩
    ∧ (∀ m, loadPreviousInfo (MetaFileState.parsed m) = .ok m)
    ∧ loadPreviousInfo MetaFileState.unparsable = .error .jsonDecodeError :=
  ⟨rfl, fun _ => rfl, rfl⟩

/-- C6 counterexample: an unparsable metadata file does not default to
`{version: 0}` with the run continuing; `json.loads` raises and the
exception propagates (only `FileNotFoundError` is caught). -/
theorem C6_counterexample :
    loadPreviousInfo MetaFileState.unparsable = .error .jsonDecodeError
    ∧ loadPreviousInfo MetaFileState.unparsable ≠ .ok ⟨0, []⟩ := by
  refine ⟨rfl, ?_⟩
  simp [loadPreviousInfo]

lemma helper_filterVariants_fst (existsOn versionOk : String → Bool)
    (vs : List ImageVariant) :
    (filterVariants existsOn versionOk vs).1
      = vs.filter (fun v => !(existsOn v.outpath && versionOk v.outpath)) := by
  induction vs with
  | nil => rfl
  | cons v rest ih =>
    simp only [filterVariants, List.filter_cons]
    by_cases h1 : existsOn v.outpath
    · by_cases h2 : versionOk v.outpath
      · simp [h1, h2, ih]
      · simp [h1, h2, ih]
    · simp [h1, ih]

lemma helper_filterVariants_snd (existsOn versionOk : String → Bool)
    (vs : List ImageVariant) :
    (filterVariants existsOn versionOk vs).2
      = (vs.filter (fun v => existsOn v.outpath && !versionOk v.outpath)).map
          ImageVariant.outpath := by
  induction vs with
  | nil => rfl
  | cons v rest ih =>
    simp only [filterVariants, List.filter_cons]
    by_cases h1 : existsOn v.outpath
    · by_cases h2 : versionOk v.outpath
      · simp [h1, h2, ih]
      · simp [h1, h2, ih]
    · simp [h1, ih]

/-- C1 amended: an output path is dropped from regeneration (skipped) iff it
exists on disk and the deriver's `versionMatches` holds; spelled out per
deriver, that is: persisted version ≥ configured version for the base,
imagery, course and tag derivers — the tag deriver, despite carrying
per-image extra data, checks only the version — and, for the banner deriver
only, additionally equality of the image's persisted and current extra data
entry. -/
theorem C1_cacheValidity_amended :
    ∀ (existsOn : String → Bool) (previous_version V : ℤ)
      (prev_data cur_data : List (String × Center)) (name : String)
      (vs : List ImageVariant),
      ((filterVariants existsOn (fun _ => baseVersionMatches previous_version V) vs).1
        = vs.filter (fun v => !(existsOn v.outpath && decide (V ≤ previous_version))))
      ∧ ((filterVariants existsOn (fun _ => tagVersionMatches previous_version) vs).1
        = vs.filter (fun v => !(existsOn v.outpath && decide (1 ≤ previous_version))))
      ∧ ((filterVariants existsOn
            (fun _ => bannerVersionMatches previous_version prev_data cur_data name) vs).1
        = vs.filter (fun v => !(existsOn v.outpath &&
            (decide (2 ≤ previous_version) &&
              decide (prev_data.lookup name = cur_data.lookup name))))) := by
  intro existsOn previous_version V prev_data cur_data name vs
  refine ⟨?_, ?_, ?_⟩
  · rw [helper_filterVariants_fst]
    simp [baseVersionMatches]
  · rw [helper_filterVariants_fst]
    simp [tagVersionMatches, tagVERSION, baseVersionMatches]
  · rw [helper_filterVariants_fst]
    simp [bannerVersionMatches, bannerVERSION]

/-- C1 counterexample: for the tag-illustration group, an image whose
persisted focal point (50,50) differs from the current one (30,70), with
metadata version 1 and all output files present, has every output skipped:
the code's skip condition holds even though the claim's extra-data equality
condition fails, refuting the claimed iff. -/
theorem C1_counterexample :
    (tagGetVariantsForImage "img" "img.png" 800 600
        [("img.png", ((30 : ℚ), (70 : ℚ)))]).map
        (fun vs => (filterVariants (fun _ => true) (fun _ => tagVersionMatches 1) vs).1)
      = .ok []
    ∧ (((50 : ℚ), (50 : ℚ)) : Center) ≠ (((30 : ℚ), (70 : ℚ)) : Center)
    ∧ tagVersionMatches 1 = true := by
  refine ⟨?_, ?_, by decide⟩
  · simp [tagGetVariantsForImage, List.lookup, Except.map, filterVariants,
      tagVersionMatches, tagVERSION, baseVersionMatches]
  · intro h
    have h3 : (50 : ℚ) = 30 := congrArg Prod.fst h
    norm_num at h3

/-- C4 amended: the compiled command for one image contains exactly the
variants that fail the cache-validity check (missing on disk, or present but
failing `versionMatches`); cache-valid variants are not rewritten. There is
one compiled command per image, so the surviving variants do share a single
decode of the source. -/
theorem C4_staleOnlyRewrite_amended :
    ∀ (existsOn versionOk : String → Bool) (vs : List ImageVariant),
      (magickCmdForFile existsOn versionOk vs).1
        = (if vs.filter (fun v => !(existsOn v.outpath && versionOk v.outpath)) = []
           then none
           else some (vs.filter (fun v => !(existsOn v.outpath && versionOk v.outpath)))) := by
  intro existsOn versionOk vs
  simp [magickCmdForFile, helper_filterVariants_fst]

/-- C4 counterexample: a course image with two planned variants where
`foo.webp` exists and is cache-valid (version matches) while `foo-1x.webp`
is missing: the compiled command rewrites only the stale variant, not all of
the image's variants as claimed. -/
theorem C4_counterexample :
    (magickCmdForFile (fun s => s == "foo.webp") (fun _ => baseVersionMatches 1 1)
        (buddhismVariants "foo" 800 600)).1
      = some [⟨⟨false, .fitResize 640 640⟩, "foo-1x.webp"⟩]
    ∧ (magickCmdForFile (fun s => s == "foo.webp") (fun _ => baseVersionMatches 1 1)
        (buddhismVariants "foo" 800 600)).1
      ≠ some (buddhismVariants "foo" 800 600)
    ∧ buddhismVariants "foo" 800 600 =
        [⟨⟨false, .fitResize 1280 1280⟩, "foo.webp"⟩,
         ⟨⟨false, .fitResize 640 640⟩, "foo-1x.webp"⟩] := by
  decide

/-- C9 amended: an output path is appended to `modified_files` only when it
is kept for regeneration AND already exists on disk (present but stale);
paths kept because the output does not exist yet are regenerated without
being recorded. The side file `modified_files.txt` is written iff that
recorded list is nonempty. -/
theorem C9_modifiedRecording_amended :
    (∀ (existsOn versionOk : String → Bool) (vs : List ImageVariant),
      (magickCmdForFile existsOn versionOk vs).2
        = (vs.filter (fun v => existsOn v.outpath && !versionOk v.outpath)).map
            ImageVariant.outpath)
    ∧ (∀ mods : List String, (sideFileGate mods = true ↔ mods ≠ [])) := by
  constructor
  · intro existsOn versionOk vs
    simp [magickCmdForFile, helper_filterVariants_snd]
  · intro mods
    simp [sideFileGate, List.length_pos]

/-- C9 counterexample: an imagery image none of whose outputs exist yet: both
variants are kept for regeneration (the compiled command is the full variant
list), yet `modified_files` stays empty and the side file is not written,
refuting both the claimed recording rule and the claimed write-iff-changed
rule. -/
theorem C9_counterexample :
    (magickCmdForFile (fun _ => false) (fun _ => baseVersionMatches 1 1)
        (imageryVariants "bar")).1 = some (imageryVariants "bar")
    ∧ (magickCmdForFile (fun _ => false) (fun _ => baseVersionMatches 1 1)
        (imageryVariants "bar")).2 = []
    ∧ imageryVariants "bar" ≠ []
    ∧ sideFileGate (magickCmdForFile (fun _ => false) (fun _ => baseVersionMatches 1 1)
        (imageryVariants "bar")).2 = false := by
  decide

/-- C3: iterating the banner breakpoints, every breakpoint before the first
one whose width times `MIN_DPP_FOR_2X` exceeds the source width yields a 2x
variant (via `magick_resize` at twice the density targets) and a 1x variant,
the first exceeding breakpoint yields exactly one 1x variant (at the density
targets) and ends the list, and later breakpoints contribute nothing; in
particular for source width 900 with breakpoints `[400, 594, 881, 1308]`
(the first four configured `TARGET_WIDTHS`), 400 gets a 2x/1x pair, 594 a
single 1x variant, and 881 and 1308 none — both over that list and over the
full configured list, and through `getVariantsForImage` itself. -/
theorem C3_bannerEarlyExit :
    (∀ (width height target_height : ℤ) (cx cy : ℚ) (stem : String)
       (ws₁ ws₂ : List ℤ) (b : ℤ) (acc : Bool),
      (∀ w ∈ ws₁, ¬((w : ℚ) * MIN_DPP_FOR_2X > (width : ℚ))) →
      ((b : ℚ) * MIN_DPP_FOR_2X > (width : ℚ)) →
      bannerVariantsLoop width height target_height cx cy stem acc (ws₁ ++ b :: ws₂)
        = bannerPairs width height target_height cx cy stem acc ws₁
          ++ [⟨⟨true, .resizeCmd (magick_resize width height
                (pyRound (DENSITY * b)) (pyRound (DENSITY * target_height)) cx cy)⟩,
              stem ++ "-" ++ toString b ++ "-1x.webp"⟩])
    ∧ (bannerVariantsLoop 900 400 680 50 50 "b" false [400, 594, 881, 1308]).map
        ImageVariant.outpath = ["b-400-2x.webp", "b-400-1x.webp", "b-594-1x.webp"]
    ∧ (bannerVariantsLoop 900 400 680 50 50 "b" false bannerTargetWidths).map
        ImageVariant.outpath = ["b-400-2x.webp", "b-400-1x.webp", "b-594-1x.webp"]
    ∧ (bannerGetVariantsForImage ["courses", "b.jpg"] "b.jpg" "b" 900 400
        [("b.jpg", ((50 : ℚ), (50 : ℚ)))]).map (fun vs => vs.map ImageVariant.outpath)
      = .ok ["b-400-2x.webp", "b-400-1x.webp", "b-594-1x.webp"] := by
  have hgen : ∀ (width height target_height : ℤ) (cx cy : ℚ) (stem : String)
      (ws₁ ws₂ : List ℤ) (b : ℤ) (acc : Bool),
      (∀ w ∈ ws₁, ¬((w : ℚ) * MIN_DPP_FOR_2X > (width : ℚ))) →
      ((b : ℚ) * MIN_DPP_FOR_2X > (width : ℚ)) →
      bannerVariantsLoop width height target_height cx cy stem acc (ws₁ ++ b :: ws₂)
        = bannerPairs width height target_height cx cy stem acc ws₁
          ++ [⟨⟨true, .resizeCmd (magick_resize width height
                (pyRound (DENSITY * b)) (pyRound (DENSITY * target_height)) cx cy)⟩,
              stem ++ "-" ++ toString b ++ "-1x.webp"⟩] := by
    intro width height target_height cx cy stem ws₁
    induction ws₁ with
    | nil =>
      intro ws₂ b acc h1 h2
      simp only [List.nil_append, bannerVariantsLoop, if_pos h2, bannerPairs]
    | cons w ws ih =>
      intro ws₂ b acc h1 h2
      have hw : ¬((w : ℚ) * MIN_DPP_FOR_2X > (width : ℚ)) :=
        h1 w (List.mem_cons_self w ws)
      have hws : ∀ x ∈ ws, ¬((x : ℚ) * MIN_DPP_FOR_2X > (width : ℚ)) :=
        fun x hx => h1 x (List.mem_cons_of_mem w hx)
      simp only [List.cons_append, bannerVariantsLoop, if_neg hw, List.append_eq]
      rw [ih ws₂ b true hws h2]
      simp [bannerPairs]
  have hsmall : (bannerVariantsLoop 900 400 680 50 50 "b" false [400, 594, 881, 1308]).map
      ImageVariant.outpath = ["b-400-2x.webp", "b-400-1x.webp", "b-594-1x.webp"] := by
    have h := hgen 900 400 680 50 50 "b" [400] [881, 1308] 594 false
      (by
        intro w hw
        simp only [List.mem_singleton] at hw
        subst hw
        norm_num [MIN_DPP_FOR_2X])
      (by norm_num [MIN_DPP_FOR_2X])
    have h' : bannerVariantsLoop 900 400 680 50 50 "b" false [400, 594, 881, 1308]
        = bannerPairs 900 400 680 50 50 "b" false [400]
          ++ [⟨⟨true, .resizeCmd (magick_resize 900 400
                (pyRound (DENSITY * ((594 : ℤ) : ℚ))) (pyRound (DENSITY * ((680 : ℤ) : ℚ))) 50 50)⟩,
              "b" ++ "-" ++ toString (594 : ℤ) ++ "-1x.webp"⟩] := h
    rw [h']
    simp only [bannerPairs, List.map_append, List.map_cons, List.map_nil]
    rfl
  have hfull : (bannerVariantsLoop 900 400 680 50 50 "b" false bannerTargetWidths).map
      ImageVariant.outpath = ["b-400-2x.webp", "b-400-1x.webp", "b-594-1x.webp"] := by
    have h := hgen 900 400 680 50 50 "b" [400] [881, 1308, 1940, 2880, 4274, 6343] 594 false
      (by
        intro w hw
        simp only [List.mem_singleton] at hw
        subst hw
        norm_num [MIN_DPP_FOR_2X])
      (by norm_num [MIN_DPP_FOR_2X])
    have h' : bannerVariantsLoop 900 400 680 50 50 "b" false bannerTargetWidths
        = bannerPairs 900 400 680 50 50 "b" false [400]
          ++ [⟨⟨true, .resizeCmd (magick_resize 900 400
                (pyRound (DENSITY * ((594 : ℤ) : ℚ))) (pyRound (DENSITY * ((680 : ℤ) : ℚ))) 50 50)⟩,
              "b" ++ "-" ++ toString (594 : ℤ) ++ "-1x.webp"⟩] := h
    rw [h']
    simp only [bannerPairs, List.map_append, List.map_cons, List.map_nil]
    rfl
  refine ⟨hgen, hsmall, hfull, ?_⟩
  have hlook : (List.lookup "b.jpg" [("b.jpg", ((50 : ℚ), (50 : ℚ)))] : Option Center)
      = some ((50 : ℚ), (50 : ℚ)) := by
    simp [List.lookup]
  have hok : bannerGetVariantsForImage ["courses", "b.jpg"] "b.jpg" "b" 900 400
      [("b.jpg", ((50 : ℚ), (50 : ℚ)))]
      = Except.ok (bannerVariantsLoop 900 400 680 50 50 "b" false bannerTargetWidths) := by
    simp [bannerGetVariantsForImage, getHeightForType, hlook]
  rw [hok]
  simp only [Except.map]
  rw [hfull]

/-- Witness for C3: the general early-exit shape applied at source width 900
with `ws₁ = [400]`, exit breakpoint 594, and skipped tail `[881, 1308]`;
`400 * 1.75 = 700 ≤ 900` while `594 * 1.75 = 1039.5 > 900`. -/
theorem C3_bannerEarlyExit_witness :
    bannerVariantsLoop 900 400 680 50 50 "b" false ([400] ++ 594 :: [881, 1308])
      = bannerPairs 900 400 680 50 50 "b" false [400]
        ++ [⟨⟨true, .resizeCmd (magick_resize 900 400
              (pyRound (DENSITY * ((594 : ℤ) : ℚ))) (pyRound (DENSITY * ((680 : ℤ) : ℚ))) 50 50)⟩,
            "b" ++ "-" ++ toString (594 : ℤ) ++ "-1x.webp"⟩] :=
  C3_bannerEarlyExit.1 900 400 680 50 50 "b" [400] [881, 1308] 594 false
    (by
      intro w hw
      simp only [List.mem_singleton] at hw
      subst hw
      norm_num [MIN_DPP_FOR_2X])
    (by norm_num [MIN_DPP_FOR_2X])

lemma helper_touchAll_nil (touched : List DPath) : touchAll [] touched = [] := by
  induction touched with
  | nil => rfl
  | cons t ts ih => simpa [touchAll, touch_file] using ih

lemma helper_touchAll_mem (s touched : List DPath) (p : DPath) :
    p ∈ touchAll s touched ↔ p ∈ s ∧ p ∉ touched := by
  induction touched generalizing s with
  | nil => simp [touchAll]
  | cons t ts ih =>
    simp only [touchAll, List.foldl_cons] at ih ⊢
    rw [ih (touch_file s t)]
    simp only [touch_file, List.mem_filter, List.mem_cons, decide_not,
      Bool.not_eq_true', decide_eq_false_iff_not]
    tauto

/-- C7 amended: with pruning requested, a destination path is deleted at the
end of the run iff some immediate entry of the destination root captured
before the run was never touched and is that path or an ancestor of it —
pruning tracks only the root's immediate entries (`dest.iterdir()`), deleting
untouched ones (directories recursively, files individually), so deeper
orphaned paths survive whenever their top-level ancestor was touched;
without pruning, `files_to_rm` starts empty and nothing is deleted. -/
theorem C7_pruning_amended :
    ∀ (dest_entries touched : List DPath) (p : DPath),
      (pathDeleted (touchAll (prepare_dest true dest_entries) touched) p = true ↔
        ∃ e ∈ dest_entries, e ∉ touched ∧ underPath e p = true)
      ∧ prepare_dest false dest_entries = []
      ∧ pathDeleted (touchAll (prepare_dest false dest_entries) touched) p = false := by
  intro dest_entries touched p
  refine ⟨?_, rfl, ?_⟩
  · simp only [pathDeleted, prepare_dest, if_pos rfl, List.any_eq_true,
      helper_touchAll_mem]
    constructor
    · rintro ⟨e, ⟨he, ht⟩, hu⟩
      exact ⟨e, he, ht, hu⟩
    · rintro ⟨e, he, ht, hu⟩
      exact ⟨e, ⟨he, ht⟩, hu⟩
  · simp [prepare_dest, helper_touchAll_nil, pathDeleted]

/-- C7 counterexample: the destination initially holds the directory
`banners` with a stale file `banners/stale.webp` inside it; the run touches
`banners` (every group touches its target directory) and writes
`banners/foo-400-1x.webp`. The stale path existed before the run and was
never touched, yet is not deleted: `files_to_rm` only ever contained the
top-level entry `banners`, which was touched. -/
theorem C7_counterexample :
    (["banners", "stale.webp"] : DPath)
        ∉ ([["banners"], ["banners", "foo-400-1x.webp"]] : List DPath)
    ∧ pathDeleted (touchAll (prepare_dest true [["banners"]])
        [["banners"], ["banners", "foo-400-1x.webp"]]) ["banners", "stale.webp"]
      = false := by
  decide

/-- C8: on a second run with no changes — every output path exists and the
persisted metadata equals what the first run wrote (version equal to the
configured one, banner extra data unchanged) — `versionMatches` holds for
every deriver, every image's filtered variant list is empty so its compiled
command is `None`, and the run submits zero invocations, only rewriting the
metadata file with identical content. -/
theorem C8_secondRunIdempotent :
    ∀ (existsOn : String → Bool) (vs : List ImageVariant) (V : ℤ)
      (data : List (String × Center)) (name : String) (meta : Metadata),
      (∀ v ∈ vs, existsOn v.outpath = true) →
      baseVersionMatches V V = true
      ∧ bannerVersionMatches 2 data data name = true
      ∧ (magickCmdForFile existsOn (fun _ => baseVersionMatches V V) vs).1 = none
      ∧ (magickCmdForFile existsOn (fun _ => bannerVersionMatches 2 data data name) vs).1
          = none
      ∧ runActions false meta [] [] = [Action.writeMetadata meta] := by
  intro existsOn vs V data name meta hex
  have hbase : baseVersionMatches V V = true := by
    simp [baseVersionMatches]
  have hban : bannerVersionMatches 2 data data name = true := by
    simp [bannerVersionMatches, bannerVERSION]
  refine ⟨hbase, hban, ?_, ?_, rfl⟩
  · simp [magickCmdForFile, helper_filterVariants_fst]
    intro x hx
    exact ⟨hex x hx, hbase⟩
  · simp [magickCmdForFile, helper_filterVariants_fst]
    intro x hx
    exact ⟨hex x hx, hban⟩

/-- Witness for C8: the course image of the spec's scenario (1600x1200, two
variants) with both outputs present and persisted version 1: nothing is
compiled and the run only rewrites identical metadata. -/
theorem C8_secondRunIdempotent_witness :
    (magickCmdForFile (fun _ => true) (fun _ => baseVersionMatches 1 1)
        (buddhismVariants "foo" 1600 1200)).1 = none
    ∧ runActions false ⟨1, []⟩ [] [] = [Action.writeMetadata ⟨1, []⟩] := by
  have h := C8_secondRunIdempotent (fun _ => true) (buddhismVariants "foo" 1600 1200)
    1 [] "x" ⟨1, []⟩ (fun v _ => rfl)
  exact ⟨h.2.2.1, h.2.2.2.2⟩

/-- C10: for a banner source file whose subfolder is not one of the five
known ones, `getHeightForType` raises `ValueError`; the exception propagates
out of `getVariantsForImage` (which consults the subfolder before anything
else) and out of command compilation, aborting the group run before any
command is compiled for that image. -/
theorem C10_unknownSubfolder :
    ∀ (sf : String),
      sf ∉ (["courses", "footers", "headers", "navbar_headers", "huge_footers"] :
        List String) →
      ∀ (rest : List String) (name stem : String) (width height : ℤ)
        (data : List (String × Center)) (existsOn versionOk : String → Bool)
        (fs : List (Except PyErr (List ImageVariant))),
        getHeightForType sf = .error .valueError
        ∧ bannerGetVariantsForImage (sf :: rest) name stem width height data
            = .error .valueError
        ∧ magickCmdForFileE existsOn versionOk
            (bannerGetVariantsForImage (sf :: rest) name stem width height data)
            = .error .valueError
        ∧ compileAll existsOn versionOk
            (bannerGetVariantsForImage (sf :: rest) name stem width height data :: fs)
            = .error .valueError := by
  intro sf hsf rest name stem width height data existsOn versionOk fs
  simp only [List.mem_cons, List.not_mem_nil, or_false, not_or] at hsf
  obtain ⟨n1, n2, n3, n4, n5⟩ := hsf
  have h1 : getHeightForType sf = .error .valueError := by
    simp [getHeightForType, n1, n2, n3, n4, n5]
  have h2 : bannerGetVariantsForImage (sf :: rest) name stem width height data
      = .error .valueError := by
    simp [bannerGetVariantsForImage, h1]
  exact ⟨h1, h2, by simp [magickCmdForFileE, h2],
    by simp [compileAll, magickCmdForFileE, h2]⟩

/-- Witness for C10 at the concrete subfolder `icons`, which is none of the
five known banner subfolders. -/
theorem C10_unknownSubfolder_witness :
    getHeightForType "icons" = .error .valueError
    ∧ bannerGetVariantsForImage ["icons", "x.jpg"] "x.jpg" "x" 900 400 []
        = .error .valueError := by
  have h := C10_unknownSubfolder "icons" (by decide) ["x.jpg"] "x.jpg" "x" 900 400 []
    (fun _ => true) (fun _ => true) []
  exact ⟨h.1, h.2.1⟩

end BigImgs
